import Mathlib

/-!
Shallow embedding of the adaptive PV polling scheduler and the astronomical
event engine of `netatmo_dashboard.py`.

Conventions of the embedding:
* instants handled by the ephemeris search (`find_sun_crossing_time`) are
  rationals in Julian days, mirroring the `t.tt` values used by the source;
* times of day handled by the scheduler (`schedule_pv_window`,
  `_get_current_pv_interval`) are rationals in minutes since local midnight;
* the skyfield ephemeris is modelled by an availability flag `avail` plus a
  pure elevation function (`ℚ → ℚ`, or `ℕ → ℕ → ℚ` indexed by hour/minute for
  the solar-noon grid search);
* Python `None` becomes `Option.none`; the truthiness test `not x` on a
  float-or-None field is `truthyQ`;
* Python `int(x)` (truncation toward zero) is `pyInt`;
* network results `(current_power, daily, monthly, yearly)` are reduced to
  the only component the scheduler inspects, `current_power`, so a fetch
  result is `Option (Option ℚ)`: `none` for a failed fetch, `some p` for a
  successful fetch whose `currentPower` field is `p`.
-/

namespace NetatmoDashboard

/-- Embedding of `get_sun_elevation_skyfield` (src lines 341-352): when the
ephemeris is unavailable it returns the horizon fallback `0`, otherwise the
elevation function `f` is consulted. -/
def get_sun_elevation_skyfield (avail : Bool) (f : ℚ → ℚ) (t : ℚ) : ℚ :=
  if avail then f t else 0

/-- One iteration of the bisection loop of `find_sun_crossing_time`
(src lines 379-392): evaluate the elevation at the midpoint of the current
bracket and replace one endpoint by the midpoint. -/
def crossingStep (g : ℚ → ℚ) (target_elevation : ℚ) (rising : Bool)
    (p : ℚ × ℚ) : ℚ × ℚ :=
  let mid_t := (p.1 + p.2) / 2
  let mid_elev := g mid_t
  if rising then
    if mid_elev < target_elevation then (mid_t, p.2) else (p.1, mid_t)
  else
    if mid_elev > target_elevation then (mid_t, p.2) else (p.1, mid_t)

/-- Embedding of `find_sun_crossing_time` (src lines 369-394): `none` when
`init_skyfield()` fails, otherwise 30 fixed bisection iterations followed by
the midpoint of the final bracket. -/
def find_sun_crossing_time (avail : Bool) (f : ℚ → ℚ) (target_elevation : ℚ)
    (start_t end_t : ℚ) (rising : Bool) : Option ℚ :=
  if avail then
    let g := get_sun_elevation_skyfield avail f
    let p := (crossingStep g target_elevation rising)^[30] (start_t, end_t)
    some ((p.1 + p.2) / 2)
  else
    none

/-- The sampling grid of `_calculate_solar_noon` (src lines 2977-2979):
`for hour in range(11, 15): for minute in range(0, 60, 5)`, i.e. the 48 pairs
(11,0), (11,5), ..., (14,55) in that order. -/
def solarNoonSamples : List (ℕ × ℕ) :=
  ((List.range 4).map fun h => (List.range 12).map fun m => (11 + h, 5 * m)).flatten

/-- One step of the running-maximum scan of `_calculate_solar_noon`
(src lines 2980-2986): keep the sample's elevation and timestamp when it
strictly exceeds the best seen so far. -/
def noonStep (f : ℕ → ℕ → ℚ) (acc : ℚ × ℕ × ℕ) (hm : ℕ × ℕ) : ℚ × ℕ × ℕ :=
  let elev := f hm.1 hm.2
  if acc.1 < elev then (elev, hm.1, hm.2) else acc

/-- Embedding of `_calculate_solar_noon` (src lines 2964-2992).  `f h m` is
the solar elevation at local time `h:m` today.  The accumulator starts at
`(0, 12, 0)` (`max_elev = 0`, `noon_hour = 12`, `noon_minute = 0`), and the
returned elevation is `max(max_elev, 10)` as in the source.  The fallback
branch (`init_skyfield()` false) returns elevation 45 and no time
(the source's `"--:--"`). -/
def calculate_solar_noon (avail : Bool) (f : ℕ → ℕ → ℚ) : ℚ × Option (ℕ × ℕ) :=
  if avail then
    let st := solarNoonSamples.foldl (noonStep f) (0, 12, 0)
    (max st.1 10, some st.2)
  else
    (45, none)

/-- The maximum elevation actually observed over the solar-noon sampling grid
(together with the source's seed value 0).  Used to compare the result of
`calculate_solar_noon` with the true grid maximum. -/
def solarNoonGridMax (f : ℕ → ℕ → ℚ) : ℚ :=
  solarNoonSamples.foldl (fun a hm => max a (f hm.1 hm.2)) 0

/-- Python `int(x)`: truncation toward zero. -/
def pyInt (q : ℚ) : ℤ :=
  if q < 0 then -⌊-q⌋ else ⌊q⌋

/-- Result of the per-day budget allocation performed by `schedule_pv_window`
(src lines 3307-3346): the two stored interval attributes and the three local
per-phase query counts. -/
structure PVAlloc where
  interval_ramp : ℚ
  interval_core : ℚ
  queries_ramp_morning : ℤ
  queries_core : ℤ
  queries_ramp_evening : ℤ
  deriving DecidableEq

/-- Embedding of `ramp_morning_min = max(0, (sunrise_dt - civil_dawn).total_seconds() / 60)`
(src line 3308), with all timestamps already in minutes. -/
def ramp_morning_min (cd sr : ℚ) : ℚ := max 0 (sr - cd)

/-- Embedding of `core_min = max(0, (sunset_dt - sunrise_dt).total_seconds() / 60)`
(src line 3309). -/
def core_min (sr ss : ℚ) : ℚ := max 0 (ss - sr)

/-- Embedding of `ramp_evening_min = max(0, (civil_dusk - sunset_dt).total_seconds() / 60)`
(src line 3310). -/
def ramp_evening_min (ss du : ℚ) : ℚ := max 0 (du - ss)

/-- Embedding of `weighted_total` with `CORE_WEIGHT = 5`, `RAMP_WEIGHT = 1`
(src lines 3312-3320). -/
def weighted_total (cd sr ss du : ℚ) : ℚ :=
  ramp_morning_min cd sr * 1 + core_min sr ss * 5 + ramp_evening_min ss du * 1

/-- Embedding of `queries_ramp_morning = int(pv_max_queries * (ramp_morning_min * RAMP_WEIGHT) / weighted_total)`
(src line 3328). -/
def queries_ramp_morning (B : ℕ) (cd sr ss du : ℚ) : ℤ :=
  pyInt ((B : ℚ) * (ramp_morning_min cd sr * 1) / weighted_total cd sr ss du)

/-- Value of `queries_core` as first computed at src line 3329, before the excess
subtraction. -/
def queries_core_raw (B : ℕ) (cd sr ss du : ℚ) : ℤ :=
  pyInt ((B : ℚ) * (core_min sr ss * 5) / weighted_total cd sr ss du)

/-- Embedding of `queries_ramp_evening = int(pv_max_queries * (ramp_evening_min * RAMP_WEIGHT) / weighted_total)`
(src line 3330). -/
def queries_ramp_evening (B : ℕ) (cd sr ss du : ℚ) : ℤ :=
  pyInt ((B : ℚ) * (ramp_evening_min ss du * 1) / weighted_total cd sr ss du)

/-- Embedding of `total_queries = queries_ramp_morning + queries_core + queries_ramp_evening`
(src line 3333). -/
def total_queries (B : ℕ) (cd sr ss du : ℚ) : ℤ :=
  queries_ramp_morning B cd sr ss du + queries_core_raw B cd sr ss du +
    queries_ramp_evening B cd sr ss du

/-- Value of `queries_core` after the excess subtraction of src lines 3334-3335. -/
def queries_core (B : ℕ) (cd sr ss du : ℚ) : ℤ :=
  if (B : ℤ) < total_queries B cd sr ss du then
    queries_core_raw B cd sr ss du - (total_queries B cd sr ss du - (B : ℤ))
  else queries_core_raw B cd sr ss du

/-- Embedding of the allocation block of `schedule_pv_window`
(src lines 3307-3346).  `B` is `self.pv_max_queries`; `cd`, `sr`, `ss`, `du`
are civil dawn, sunrise, sunset and civil dusk in minutes since local
midnight.  In the degenerate branch (`weighted_total <= 0`) the source sets
only the fallback intervals and computes no query counts; the counts are
modelled as 0 there. -/
def schedule_pv_allocate (B : ℕ) (cd sr ss du : ℚ) : PVAlloc :=
  if weighted_total cd sr ss du ≤ 0 then
    { interval_ramp := 10 * 60
      interval_core := 2 * 60
      queries_ramp_morning := 0
      queries_core := 0
      queries_ramp_evening := 0 }
  else
    { interval_ramp :=
        if 0 < queries_ramp_morning B cd sr ss du ∧ 0 < ramp_morning_min cd sr then
          ramp_morning_min cd sr / ((queries_ramp_morning B cd sr ss du : ℤ) : ℚ) * 60
        else 10 * 60
      interval_core :=
        if 0 < queries_core B cd sr ss du ∧ 0 < core_min sr ss then
          core_min sr ss / ((queries_core B cd sr ss du : ℤ) : ℚ) * 60
        else 2 * 60
      queries_ramp_morning := queries_ramp_morning B cd sr ss du
      queries_core := queries_core B cd sr ss du
      queries_ramp_evening := queries_ramp_evening B cd sr ss du }

/-- The PV-scheduling attributes of `Dashboard7inchRedesigned`
(initialised at src lines 1347-1354 and 1384-1385).  Window boundaries and
intervals are `Option ℚ` because they start as `None`; `pv_query_date` is a
day number (`Option ℤ`, `None` before the first call). -/
structure DashState where
  pv_attempts_today : ℕ
  pv_queries_today : ℕ
  pv_consecutive_failures : ℕ
  pv_max_queries : ℕ
  pv_query_date : Option ℤ
  pv_civil_dawn : Option ℚ
  pv_sunrise : Option ℚ
  pv_sunset : Option ℚ
  pv_civil_dusk : Option ℚ
  pv_interval_ramp : Option ℚ
  pv_interval_core : Option ℚ
  last_pv_power : Option ℚ
  deriving DecidableEq

/-- Python truthiness of a float-or-None attribute: `None` and `0` are falsy. -/
def truthyQ : Option ℚ → Bool
  | none => false
  | some q => decide (q ≠ 0)

/-- Python `x or d` for a float-or-None `x` and default `d`. -/
def orDefault (x : Option ℚ) (d : ℚ) : ℚ :=
  if truthyQ x then x.getD d else d

/-- The check `self.last_pv_power is not None and self.last_pv_power > 0`
(src lines 3497 and 3558). -/
def powerPositive : Option ℚ → Bool
  | none => false
  | some p => decide (0 < p)

/-- Embedding of `_get_current_pv_interval` (src lines 3418-3456): the pair
`(interval_seconds, continue_queries)` as a function of the stored state and
`now` in minutes since local midnight.  The phase dispatch compares `now`
against the four stored boundaries. -/
def get_current_pv_interval (s : DashState) (now : ℚ) : ℚ × Bool :=
  if s.pv_max_queries ≤ s.pv_queries_today then (0, false)
  else if s.pv_civil_dawn.isNone ∨ s.pv_sunrise.isNone ∨ s.pv_sunset.isNone ∨
      s.pv_civil_dusk.isNone then
    (orDefault s.pv_interval_core 120, false)
  else if ¬ truthyQ s.pv_interval_ramp ∨ ¬ truthyQ s.pv_interval_core then
    (120, false)
  else
    let cd := s.pv_civil_dawn.getD 0
    let sr := s.pv_sunrise.getD 0
    let ss := s.pv_sunset.getD 0
    let du := s.pv_civil_dusk.getD 0
    if now < cd ∨ du < now then (0, false)
    else if cd ≤ now ∧ now < sr then (s.pv_interval_ramp.getD 0, true)
    else if sr ≤ now ∧ now ≤ ss then (s.pv_interval_core.getD 0, true)
    else if ss < now ∧ now ≤ du then (s.pv_interval_ramp.getD 0, true)
    else (0, false)

/-- The re-arming action chosen by a finalize step.  `pause15` is the
15-minute extended pause (`_schedule_pv_retry(15*60*1000)` in
`_finalize_pv_smart`, resp. the 15-minute followup timer in
`_finalize_pv_followup`); `armNext i` re-arms `pv_query_step` after `i`
seconds; `followup` enters followup polling now; `armFollowup10` re-arms
`pv_followup_step` after 10 minutes; `nextDay` calls `_schedule_next_day`. -/
inductive PVAction where
  | pause15
  | armNext (interval_s : ℚ)
  | followup
  | armFollowup10
  | nextDay
  deriving DecidableEq

/-- The tail of `_finalize_pv_smart` after the failure-pause check
(src lines 3481-3507): consult `_get_current_pv_interval`, re-arm when
polling continues, otherwise decide between followup and next-day. -/
def pv_smart_continue (s : DashState) (now : ℚ) : DashState × PVAction :=
  let r := get_current_pv_interval s now
  if r.2 = true ∧ 0 < r.1 then (s, PVAction.armNext r.1)
  else if powerPositive s.last_pv_power then
    if s.pv_queries_today < s.pv_max_queries then (s, PVAction.followup)
    else (s, PVAction.nextDay)
  else (s, PVAction.nextDay)

/-- Embedding of `_finalize_pv_smart` (src lines 3462-3507).  `result` is
`none` for a failed fetch and `some p` for a successful fetch with
`currentPower = p` (applied to the labels, hence to `last_pv_power`, by
`update_pv_labels`, src line 3173). -/
def finalize_pv_smart (s : DashState) (now : ℚ) (result : Option (Option ℚ)) :
    DashState × PVAction :=
  let s1 : DashState := { s with pv_attempts_today := s.pv_attempts_today + 1 }
  match result with
  | some p =>
      let s2 : DashState :=
        { s1 with pv_queries_today := s1.pv_queries_today + 1
                  pv_consecutive_failures := 0
                  last_pv_power := p }
      pv_smart_continue s2 now
  | none =>
      let s2 : DashState :=
        { s1 with pv_consecutive_failures := s1.pv_consecutive_failures + 1 }
      if 5 ≤ s2.pv_consecutive_failures then (s2, PVAction.pause15)
      else pv_smart_continue s2 now

/-- The tail of `_finalize_pv_followup` after the failure-pause check
(src lines 3552-3568): budget check, then keep following up while the last
known production is positive. -/
def pv_followup_continue (s : DashState) : DashState × PVAction :=
  if s.pv_max_queries ≤ s.pv_queries_today then (s, PVAction.nextDay)
  else if powerPositive s.last_pv_power then (s, PVAction.armFollowup10)
  else (s, PVAction.nextDay)

/-- Embedding of `_finalize_pv_followup` (src lines 3529-3568). -/
def finalize_pv_followup (s : DashState) (result : Option (Option ℚ)) :
    DashState × PVAction :=
  let s1 : DashState := { s with pv_attempts_today := s.pv_attempts_today + 1 }
  match result with
  | some p =>
      let s2 : DashState :=
        { s1 with pv_queries_today := s1.pv_queries_today + 1
                  pv_consecutive_failures := 0
                  last_pv_power := p }
      pv_followup_continue s2
  | none =>
      let s2 : DashState :=
        { s1 with pv_consecutive_failures := s1.pv_consecutive_failures + 1 }
      if 5 ≤ s2.pv_consecutive_failures then (s2, PVAction.pause15)
      else pv_followup_continue s2

/-- The action taken at the end of `schedule_pv_window`: `retry30` is
`_schedule_pv_retry(30*60*1000)` (try the whole window computation again in
30 minutes, src line 3289); `waitForDawn d` arms `pv_query_step` for `d`
milliseconds (start at civil dawn); `startNow` issues `pv_query_step()`
immediately; `nextDay` calls `_schedule_next_day`. -/
inductive WindowAction where
  | retry30
  | waitForDawn (delay_ms : ℤ)
  | startNow
  | nextDay
  deriving DecidableEq

/-- The window-boundary reconciliation of `schedule_pv_window`
(src lines 3274-3299): skyfield civil twilight when available, otherwise
estimate twilight as sunrise−30min / sunset+30min from the api.met.no
sunrise/sunset; when the twilight came from skyfield but sunrise/sunset is
unavailable, estimate the core bounds as civil_dawn+30min / civil_dusk−30min;
`none` when neither source is available. -/
def resolveWindow :
    Option (ℚ × ℚ) → Option (ℚ × ℚ) → Option (ℚ × ℚ × ℚ × ℚ)
  | some (cd, du), some (sr, ss) => some (cd, sr, ss, du)
  | some (cd, du), none => some (cd, cd + 30, du - 30, du)
  | none, some (sr, ss) => some (sr - 30, sr, ss, ss + 30)
  | none, none => none

/-- Embedding of `schedule_pv_window` (src lines 3258-3380).  `today` is the
current day number, `now` the current time in minutes since local midnight,
`skyTwilight` the result of `get_civil_twilight_skyfield()` and `apiSun` the
result of `fetch_sunrise_sunset_datetimes_local()` (both `none` on failure).
The day-rollover reset of src lines 3269-3272 happens before anything else;
when no window can be resolved the function returns with a 30-minute retry
(src lines 3287-3290); otherwise the four boundaries and the freshly
allocated intervals are stored and the closing dispatch of src lines
3364-3376 picks the action. -/
def schedule_pv_window (s : DashState) (today : ℤ) (now : ℚ)
    (skyTwilight apiSun : Option (ℚ × ℚ)) : DashState × WindowAction :=
  let s0 : DashState :=
    if s.pv_query_date = some today then s
    else { s with pv_queries_today := 0, pv_query_date := some today }
  match resolveWindow skyTwilight apiSun with
  | none => (s0, WindowAction.retry30)
  | some (cd, sr, ss, du) =>
      let a := schedule_pv_allocate s0.pv_max_queries cd sr ss du
      let s1 : DashState :=
        { s0 with pv_civil_dawn := some cd
                  pv_sunrise := some sr
                  pv_sunset := some ss
                  pv_civil_dusk := some du
                  pv_interval_ramp := some a.interval_ramp
                  pv_interval_core := some a.interval_core }
      if now < cd then
        (s1, WindowAction.waitForDawn (max (pyInt ((cd - now) * 60000)) 1000))
      else if now ≤ du then (s1, WindowAction.startNow)
      else (s1, WindowAction.nextDay)

/-- The scheduler state as it stands right after `schedule_pv_window` has
stored the window `(cd, sr, ss, du)` and the intervals allocated for it
(src lines 3301-3346), with `queries` successful queries already issued. -/
def stateAfterAllocate (B queries : ℕ) (cd sr ss du : ℚ) : DashState :=
  let a := schedule_pv_allocate B cd sr ss du
  { pv_attempts_today := queries
    pv_queries_today := queries
    pv_consecutive_failures := 0
    pv_max_queries := B
    pv_query_date := some 0
    pv_civil_dawn := some cd
    pv_sunrise := some sr
    pv_sunset := some ss
    pv_civil_dusk := some du
    pv_interval_ramp := some a.interval_ramp
    pv_interval_core := some a.interval_core
    last_pv_power := none }

/-! Helper lemmas about the bisection loop. -/

theorem crossingStep_bounds (g : ℚ → ℚ) (target : ℚ) (rising : Bool)
    (p : ℚ × ℚ) (h : p.1 ≤ p.2) :
    p.1 ≤ (crossingStep g target rising p).1 ∧
    (crossingStep g target rising p).1 ≤ (crossingStep g target rising p).2 ∧
    (crossingStep g target rising p).2 ≤ p.2 := by
  have h1 : p.1 ≤ (p.1 + p.2) / 2 := by linarith
  have h2 : (p.1 + p.2) / 2 ≤ p.2 := by linarith
  have key :
      (crossingStep g target rising p).1 = (p.1 + p.2) / 2 ∧
        (crossingStep g target rising p).2 = p.2 ∨
      (crossingStep g target rising p).1 = p.1 ∧
        (crossingStep g target rising p).2 = (p.1 + p.2) / 2 := by
    unfold crossingStep
    dsimp only
    split <;> split <;> simp
  rcases key with ⟨ha, hb⟩ | ⟨ha, hb⟩ <;> rw [ha, hb] <;>
    exact ⟨by linarith, by linarith, by linarith⟩

theorem crossing_iterate_bounds (g : ℚ → ℚ) (target : ℚ) (rising : Bool)
    (s e : ℚ) (h : s ≤ e) (n : ℕ) :
    s ≤ ((crossingStep g target rising)^[n] (s, e)).1 ∧
    ((crossingStep g target rising)^[n] (s, e)).1 ≤
      ((crossingStep g target rising)^[n] (s, e)).2 ∧
    ((crossingStep g target rising)^[n] (s, e)).2 ≤ e := by
  induction n with
  | zero =>
      simp only [Function.iterate_zero_apply]
      exact ⟨le_refl s, h, le_refl e⟩
  | succ n ih =>
      rw [Function.iterate_succ_apply']
      obtain ⟨h1, h2, h3⟩ := ih
      obtain ⟨g1, g2, g3⟩ :=
        crossingStep_bounds g target rising ((crossingStep g target rising)^[n] (s, e)) h2
      exact ⟨le_trans h1 g1, g2, le_trans g3 h3⟩

theorem crossing_rising_invariant (g : ℚ → ℚ) (target c s e : ℚ)
    (hmono : StrictMonoOn g (Set.Icc s e)) (hc : g c = target)
    (hsc : s ≤ c) (hce : c ≤ e) (n : ℕ) :
    s ≤ ((crossingStep g target true)^[n] (s, e)).1 ∧
    ((crossingStep g target true)^[n] (s, e)).1 ≤ c ∧
    c ≤ ((crossingStep g target true)^[n] (s, e)).2 ∧
    ((crossingStep g target true)^[n] (s, e)).2 ≤ e ∧
    ((crossingStep g target true)^[n] (s, e)).2 -
      ((crossingStep g target true)^[n] (s, e)).1 = (e - s) / 2 ^ n := by
  induction n with
  | zero =>
      simp only [Function.iterate_zero_apply]
      exact ⟨le_refl s, hsc, hce, le_refl e, by norm_num⟩
  | succ n ih =>
      rw [Function.iterate_succ_apply']
      obtain ⟨i1, i2, i3, i4, i5⟩ := ih
      set p := (crossingStep g target true)^[n] (s, e) with hp
      have hp12 : p.1 ≤ p.2 := le_trans i2 i3
      have hmid1 : p.1 ≤ (p.1 + p.2) / 2 := by linarith
      have hmid2 : (p.1 + p.2) / 2 ≤ p.2 := by linarith
      have hmidIcc : (p.1 + p.2) / 2 ∈ Set.Icc s e :=
        ⟨le_trans i1 hmid1, le_trans hmid2 i4⟩
      have hcIcc : c ∈ Set.Icc s e := ⟨hsc, hce⟩
      by_cases hlt : g ((p.1 + p.2) / 2) < target
      · have hstep : crossingStep g target true p = ((p.1 + p.2) / 2, p.2) := by
          simp [crossingStep, hlt]
        have hmc : (p.1 + p.2) / 2 ≤ c := by
          by_contra hcon
          push_neg at hcon
          have := hmono hcIcc hmidIcc hcon
          rw [hc] at this
          linarith
        rw [hstep]
        refine ⟨le_trans i1 hmid1, hmc, i3, i4, ?_⟩
        have hw : p.2 - (p.1 + p.2) / 2 = (p.2 - p.1) / 2 := by ring
        rw [hw, i5, pow_succ]
        ring
      · have hstep : crossingStep g target true p = (p.1, (p.1 + p.2) / 2) := by
          simp [crossingStep, hlt]
        push_neg at hlt
        have hcm : c ≤ (p.1 + p.2) / 2 := by
          by_contra hcon
          push_neg at hcon
          have := hmono hmidIcc hcIcc hcon
          rw [hc] at this
          linarith
        rw [hstep]
        refine ⟨i1, i2, hcm, le_trans hmid2 i4, ?_⟩
        have hw : (p.1 + p.2) / 2 - p.1 = (p.2 - p.1) / 2 := by ring
        rw [hw, i5, pow_succ]
        ring

theorem crossing_falling_invariant (g : ℚ → ℚ) (target c s e : ℚ)
    (hanti : StrictAntiOn g (Set.Icc s e)) (hc : g c = target)
    (hsc : s ≤ c) (hce : c ≤ e) (n : ℕ) :
    s ≤ ((crossingStep g target false)^[n] (s, e)).1 ∧
    ((crossingStep g target false)^[n] (s, e)).1 ≤ c ∧
    c ≤ ((crossingStep g target false)^[n] (s, e)).2 ∧
    ((crossingStep g target false)^[n] (s, e)).2 ≤ e ∧
    ((crossingStep g target false)^[n] (s, e)).2 -
      ((crossingStep g target false)^[n] (s, e)).1 = (e - s) / 2 ^ n := by
  induction n with
  | zero =>
      simp only [Function.iterate_zero_apply]
      exact ⟨le_refl s, hsc, hce, le_refl e, by norm_num⟩
  | succ n ih =>
      rw [Function.iterate_succ_apply']
      obtain ⟨i1, i2, i3, i4, i5⟩ := ih
      set p := (crossingStep g target false)^[n] (s, e) with hp
      have hp12 : p.1 ≤ p.2 := le_trans i2 i3
      have hmid1 : p.1 ≤ (p.1 + p.2) / 2 := by linarith
      have hmid2 : (p.1 + p.2) / 2 ≤ p.2 := by linarith
      have hmidIcc : (p.1 + p.2) / 2 ∈ Set.Icc s e :=
        ⟨le_trans i1 hmid1, le_trans hmid2 i4⟩
      have hcIcc : c ∈ Set.Icc s e := ⟨hsc, hce⟩
      by_cases hgt : g ((p.1 + p.2) / 2) > target
      · have hstep : crossingStep g target false p = ((p.1 + p.2) / 2, p.2) := by
          simp [crossingStep, hgt]
        have hmc : (p.1 + p.2) / 2 ≤ c := by
          by_contra hcon
          push_neg at hcon
          have := hanti hcIcc hmidIcc hcon
          rw [hc] at this
          linarith
        rw [hstep]
        refine ⟨le_trans i1 hmid1, hmc, i3, i4, ?_⟩
        have hw : p.2 - (p.1 + p.2) / 2 = (p.2 - p.1) / 2 := by ring
        rw [hw, i5, pow_succ]
        ring
      · have hstep : crossingStep g target false p = (p.1, (p.1 + p.2) / 2) := by
          simp [crossingStep, hgt]
        push_neg at hgt
        have hcm : c ≤ (p.1 + p.2) / 2 := by
          by_contra hcon
          push_neg at hcon
          have := hanti hmidIcc hcIcc hcon
          rw [hc] at this
          linarith
        rw [hstep]
        refine ⟨i1, i2, hcm, le_trans hmid2 i4, ?_⟩
        have hw : (p.1 + p.2) / 2 - p.1 = (p.2 - p.1) / 2 := by ring
        rw [hw, i5, pow_succ]
        ring

/-- C9: when the ephemeris capability is unavailable at call time, the
elevation function returns 0 degrees and the crossing search returns the
sentinel `none` instead of raising, for every input. -/
theorem ephemeris_unavailable_degrades (f : ℚ → ℚ) (t target s e : ℚ)
    (rising : Bool) :
    get_sun_elevation_skyfield false f t = 0 ∧
    find_sun_crossing_time false f target s e rising = none :=
  ⟨rfl, rfl⟩

/-- C10: for every search bracket with `s ≤ e`, when the ephemeris is
available the crossing search succeeds and returns an instant inside the
original bracket: each of the 30 bisection iterations only shrinks the
bracket and the result is the midpoint of the final bracket. -/
theorem find_crossing_in_bracket (f : ℚ → ℚ) (target s e : ℚ) (rising : Bool)
    (h : s ≤ e) :
    ∃ r, find_sun_crossing_time true f target s e rising = some r ∧
      s ≤ r ∧ r ≤ e := by
  obtain ⟨h1, h2, h3⟩ :=
    crossing_iterate_bounds (get_sun_elevation_skyfield true f) target rising s e h 30
  refine ⟨_, rfl, ?_, ?_⟩ <;> linarith

/-- Closed witness for `find_crossing_in_bracket`. -/
theorem find_crossing_in_bracket_witness :
    (0:ℚ) ≤ 1 ∧
    ∃ r, find_sun_crossing_time true (fun _ => 0) 1 0 1 false = some r ∧
      0 ≤ r ∧ r ≤ 1 :=
  ⟨by norm_num, find_crossing_in_bracket (fun _ => 0) 1 0 1 false (by norm_num)⟩

/-- C7: the crossing search performs 30 fixed bisection iterations over the
given closed bracket and returns the midpoint of the final bracket; for an
elevation function that is strictly monotonic over the search interval — in
the direction matching the search mode: strictly increasing for the upward
search (`rising=True`, the dawn crossing) and strictly decreasing for the
downward search (`rising=False`, the dusk crossing) — with a true crossing
inside the bracket and a bracket of at most one day (times in Julian days,
as the source's `t.tt`), the returned instant is within one second
(`1/86400` day) of the true crossing. -/
theorem find_crossing_within_one_second (f : ℚ → ℚ) (target c s e : ℚ)
    (hc : f c = target) (hsc : s ≤ c) (hce : c ≤ e) (hday : e - s ≤ 1) :
    (StrictMonoOn f (Set.Icc s e) →
      ∃ r, find_sun_crossing_time true f target s e true = some r ∧
        |r - c| ≤ 1 / 86400) ∧
    (StrictAntiOn f (Set.Icc s e) →
      ∃ r, find_sun_crossing_time true f target s e false = some r ∧
        |r - c| ≤ 1 / 86400) := by
  have hg : get_sun_elevation_skyfield true f = f := rfl
  constructor
  · intro hmono
    obtain ⟨i1, i2, i3, i4, i5⟩ :=
      crossing_rising_invariant (get_sun_elevation_skyfield true f) target c s e
        (by rw [hg]; exact hmono) (by rw [hg]; exact hc) hsc hce 30
    set p := (crossingStep (get_sun_elevation_skyfield true f) target true)^[30] (s, e)
      with hp
    refine ⟨(p.1 + p.2) / 2, rfl, ?_⟩
    have habs : |(p.1 + p.2) / 2 - c| ≤ (p.2 - p.1) / 2 := by
      rw [abs_le]
      constructor <;> linarith
    have h2p : (0:ℚ) < 2 ^ 30 := by positivity
    have hle : (e - s) / 2 ^ 30 ≤ 1 / 2 ^ 30 := by gcongr
    have hnum : ((1:ℚ) / 2 ^ 30) / 2 ≤ 1 / 86400 := by norm_num
    rw [i5] at habs
    linarith
  · intro hanti
    obtain ⟨i1, i2, i3, i4, i5⟩ :=
      crossing_falling_invariant (get_sun_elevation_skyfield true f) target c s e
        (by rw [hg]; exact hanti) (by rw [hg]; exact hc) hsc hce 30
    set p := (crossingStep (get_sun_elevation_skyfield true f) target false)^[30] (s, e)
      with hp
    refine ⟨(p.1 + p.2) / 2, rfl, ?_⟩
    have habs : |(p.1 + p.2) / 2 - c| ≤ (p.2 - p.1) / 2 := by
      rw [abs_le]
      constructor <;> linarith
    have h2p : (0:ℚ) < 2 ^ 30 := by positivity
    have hle : (e - s) / 2 ^ 30 ≤ 1 / 2 ^ 30 := by gcongr
    have hnum : ((1:ℚ) / 2 ^ 30) / 2 ≤ 1 / 86400 := by norm_num
    rw [i5] at habs
    linarith

/-- Closed witness for `find_crossing_within_one_second`: the rising search
on the strictly increasing elevation `t` and the falling search on the
strictly decreasing elevation `1 - t`, both crossing the target `1/2` at
`t = 1/2` inside the bracket `[0, 1]`. -/
theorem find_crossing_within_one_second_witness :
    (∃ r, find_sun_crossing_time true (fun t => t) (1/2) 0 1 true = some r ∧
      |r - 1/2| ≤ 1 / 86400) ∧
    (∃ r, find_sun_crossing_time true (fun t => 1 - t) (1/2) 0 1 false = some r ∧
      |r - 1/2| ≤ 1 / 86400) :=
  ⟨(find_crossing_within_one_second (fun t => t) (1/2) (1/2) 0 1 rfl
      (by norm_num) (by norm_num) (by norm_num)).1
      (by intro a ha b hb hab; exact hab),
    (find_crossing_within_one_second (fun t => 1 - t) (1/2) (1/2) 0 1
      (by norm_num) (by norm_num) (by norm_num) (by norm_num)).2
      (by intro a ha b hb hab; dsimp only; linarith)⟩

theorem noonFold_spec (f : ℕ → ℕ → ℚ) (l : List (ℕ × ℕ)) (acc : ℚ × ℕ × ℕ) :
    (l.foldl (noonStep f) acc).1 =
      l.foldl (fun a hm => max a (f hm.1 hm.2)) acc.1 ∧
    (l.foldl (noonStep f) acc = acc ∨
      ((l.foldl (noonStep f) acc).2 ∈ l ∧
        f (l.foldl (noonStep f) acc).2.1 (l.foldl (noonStep f) acc).2.2 =
          (l.foldl (noonStep f) acc).1 ∧
        acc.1 < (l.foldl (noonStep f) acc).1)) := by
  induction l generalizing acc with
  | nil => simp
  | cons x xs ih =>
      simp only [List.foldl_cons]
      by_cases hx : acc.1 < f x.1 x.2
      · have hstep : noonStep f acc x = (f x.1 x.2, x.1, x.2) := by
          simp [noonStep, hx]
        rw [hstep]
        have hmax : max acc.1 (f x.1 x.2) = f x.1 x.2 := max_eq_right (le_of_lt hx)
        obtain ⟨ih1, ih2⟩ := ih (f x.1 x.2, x.1, x.2)
        refine ⟨by rw [ih1]; rw [hmax], ?_⟩
        rcases ih2 with heq | ⟨hmem, hval, hlt⟩
        · right
          rw [heq]
          exact ⟨by simp, rfl, hx⟩
        · right
          exact ⟨List.mem_cons_of_mem x hmem, hval, lt_trans hx hlt⟩
      · have hstep : noonStep f acc x = acc := by simp [noonStep, hx]
        rw [hstep]
        have hmax : max acc.1 (f x.1 x.2) = acc.1 := max_eq_left (not_lt.mp hx)
        obtain ⟨ih1, ih2⟩ := ih acc
        refine ⟨by rw [ih1]; rw [hmax], ?_⟩
        rcases ih2 with heq | ⟨hmem, hval, hlt⟩
        · left
          exact heq
        · right
          exact ⟨List.mem_cons_of_mem x hmem, hval, hlt⟩

/-- C8 (amended): the solar-noon search samples in 5-minute steps over the
11:00-15:00 grid keeping a running strict maximum, but the returned
elevation is the observed grid maximum clamped from below to 10 degrees
(`max(max_elev, 10)` in the source), and the returned timestamp is the grid
time of the (first) maximum only when some sample is strictly positive;
otherwise the initial default 12:00 is returned. -/
theorem calculate_solar_noon_clamped (f : ℕ → ℕ → ℚ) (tm : ℕ × ℕ)
    (h : (calculate_solar_noon true f).2 = some tm) :
    (calculate_solar_noon true f).1 = max 10 (solarNoonGridMax f) ∧
    (0 < solarNoonGridMax f →
      tm ∈ solarNoonSamples ∧ f tm.1 tm.2 = solarNoonGridMax f) ∧
    (solarNoonGridMax f ≤ 0 → tm = (12, 0)) := by
  obtain ⟨h1, h2⟩ := noonFold_spec f solarNoonSamples (0, 12, 0)
  have htm : tm = (solarNoonSamples.foldl (noonStep f) (0, 12, 0)).2 :=
    (Option.some.inj h).symm
  have hfst : (calculate_solar_noon true f).1 =
      max (solarNoonSamples.foldl (noonStep f) (0, 12, 0)).1 10 := rfl
  have hgm : (solarNoonSamples.foldl (noonStep f) (0, 12, 0)).1 =
      solarNoonGridMax f := h1
  refine ⟨by rw [hfst, hgm, max_comm], ?_, ?_⟩
  · intro hpos
    rcases h2 with heq | ⟨hmem, hval, hlt⟩
    · exfalso
      have : (solarNoonSamples.foldl (noonStep f) (0, 12, 0)).1 = 0 := by
        rw [heq]
      rw [hgm] at this
      rw [this] at hpos
      exact lt_irrefl 0 hpos
    · rw [htm]
      exact ⟨hmem, by rw [hval, hgm]⟩
  · intro hnonpos
    rcases h2 with heq | ⟨hmem, hval, hlt⟩
    · rw [htm, heq]
    · exfalso
      rw [hgm] at hlt
      exact absurd (lt_of_lt_of_le hlt hnonpos) (lt_irrefl 0)

set_option maxRecDepth 8192 in
/-- Closed witness for `calculate_solar_noon_clamped`, at the constant
elevation function 5: the sample (11,0) immediately becomes the running
maximum, so the returned time is 11:00 and the returned elevation is the
clamp `max 10 5 = 10`. -/
theorem calculate_solar_noon_clamped_witness :
    (calculate_solar_noon true fun _ _ => (5:ℚ)).2 = some (11, 0) ∧
    ((calculate_solar_noon true fun _ _ => (5:ℚ)).1 =
        max 10 (solarNoonGridMax fun _ _ => (5:ℚ)) ∧
      (0 < solarNoonGridMax (fun _ _ => (5:ℚ)) →
        (11, 0) ∈ solarNoonSamples ∧
          (fun _ _ => (5:ℚ)) 11 0 = solarNoonGridMax fun _ _ => (5:ℚ)) ∧
      (solarNoonGridMax (fun _ _ => (5:ℚ)) ≤ 0 → ((11, 0) : ℕ × ℕ) = (12, 0))) :=
  ⟨by decide, calculate_solar_noon_clamped (fun _ _ => (5:ℚ)) (11, 0) (by decide)⟩

set_option maxRecDepth 8192 in
/-- C8 counterexample: with every grid sample at elevation 5 degrees, the
maximum elevation over the sampled grid is 5, yet `_calculate_solar_noon`
returns elevation 10 — the returned pair is not the maximum observed
elevation together with its grid time, refuting the claim as stated. -/
theorem calculate_solar_noon_counterexample :
    calculate_solar_noon true (fun _ _ => (5:ℚ)) = (10, some (11, 0)) ∧
    solarNoonGridMax (fun _ _ => (5:ℚ)) = 5 ∧ (10 : ℚ) ≠ 5 :=
  ⟨by decide, by decide, by norm_num⟩

/-! Helper lemmas about the budget allocation. -/

theorem schedule_pv_allocate_pos (B : ℕ) (cd sr ss du : ℚ) :
    0 < (schedule_pv_allocate B cd sr ss du).interval_ramp ∧
    0 < (schedule_pv_allocate B cd sr ss du).interval_core := by
  unfold schedule_pv_allocate
  split
  · exact ⟨by norm_num, by norm_num⟩
  · dsimp only
    constructor
    · split
      · next h => exact mul_pos (div_pos h.2 (by exact_mod_cast h.1)) (by norm_num)
      · norm_num
    · split
      · next h => exact mul_pos (div_pos h.2 (by exact_mod_cast h.1)) (by norm_num)
      · norm_num

theorem schedule_pv_allocate_total (B : ℕ) (cd sr ss du : ℚ) :
    (schedule_pv_allocate B cd sr ss du).queries_ramp_morning +
      (schedule_pv_allocate B cd sr ss du).queries_core +
      (schedule_pv_allocate B cd sr ss du).queries_ramp_evening ≤ (B : ℤ) := by
  unfold schedule_pv_allocate
  split
  · simp
  · dsimp only
    unfold queries_core total_queries
    split
    · next h => linarith
    · next h => linarith [not_lt.mp h]

/-- C1: for every valid twilight window (civilDawn ≤ sunrise ≤ sunset ≤
civilDusk) and daily budget, the allocation of `schedule_pv_window` computes
strictly positive polling intervals (the ramp interval serves both the dawn
and the dusk ramp phase, the core interval the core phase) whose implied
total query count — dawn-ramp queries + core queries + dusk-ramp queries,
after floor rounding and after subtracting any excess from the core count
only — is at most the daily budget. -/
theorem allocate_within_budget (B : ℕ) (cd sr ss du : ℚ)
    (h1 : cd ≤ sr) (h2 : sr ≤ ss) (h3 : ss ≤ du) :
    0 < (schedule_pv_allocate B cd sr ss du).interval_ramp ∧
    0 < (schedule_pv_allocate B cd sr ss du).interval_core ∧
    (schedule_pv_allocate B cd sr ss du).queries_ramp_morning +
      (schedule_pv_allocate B cd sr ss du).queries_core +
      (schedule_pv_allocate B cd sr ss du).queries_ramp_evening ≤ (B : ℤ) :=
  ⟨(schedule_pv_allocate_pos B cd sr ss du).1,
    (schedule_pv_allocate_pos B cd sr ss du).2,
    schedule_pv_allocate_total B cd sr ss du⟩

/-- Closed witness for `allocate_within_budget`: the window 06:00 / 06:30 /
20:00 / 20:30 (in minutes since midnight) with the source's budget 280. -/
theorem allocate_within_budget_witness :
    ((360:ℚ) ≤ 390 ∧ (390:ℚ) ≤ 1200 ∧ (1200:ℚ) ≤ 1230) ∧
    (0 < (schedule_pv_allocate 280 360 390 1200 1230).interval_ramp ∧
      0 < (schedule_pv_allocate 280 360 390 1200 1230).interval_core ∧
      (schedule_pv_allocate 280 360 390 1200 1230).queries_ramp_morning +
        (schedule_pv_allocate 280 360 390 1200 1230).queries_core +
        (schedule_pv_allocate 280 360 390 1200 1230).queries_ramp_evening ≤
        ((280:ℕ) : ℤ)) :=
  ⟨⟨by norm_num, by norm_num, by norm_num⟩,
    allocate_within_budget 280 360 390 1200 1230 (by norm_num) (by norm_num)
      (by norm_num)⟩

/-! Helper lemmas about the finalize steps. -/

theorem pv_smart_continue_fst (s : DashState) (now : ℚ) :
    (pv_smart_continue s now).1 = s := by
  unfold pv_smart_continue
  dsimp only
  split
  · rfl
  · split
    · split <;> rfl
    · rfl

theorem pv_followup_continue_fst (s : DashState) :
    (pv_followup_continue s).1 = s := by
  unfold pv_followup_continue
  split
  · rfl
  · split <;> rfl

theorem pv_smart_continue_not_pause (s : DashState) (now : ℚ) :
    (pv_smart_continue s now).2 ≠ PVAction.pause15 := by
  unfold pv_smart_continue
  dsimp only
  split
  · simp
  · split
    · split <;> simp
    · simp

theorem pv_followup_continue_not_pause (s : DashState) :
    (pv_followup_continue s).2 ≠ PVAction.pause15 := by
  unfold pv_followup_continue
  split
  · simp
  · split <;> simp

/-- C2: on every fetch result applied by the scheduler (both the in-window
`_finalize_pv_smart` path and the `_finalize_pv_followup` path), the daily
budget counter `pv_queries_today` is incremented exactly when the fetch
succeeded, while `pv_attempts_today` is incremented on every attempt
regardless of outcome; a failed fetch leaves the budget counter unchanged. -/
theorem budget_counts_only_successes (s : DashState) (now : ℚ)
    (result : Option (Option ℚ)) :
    (finalize_pv_smart s now result).1.pv_attempts_today =
      s.pv_attempts_today + 1 ∧
    (finalize_pv_smart s now result).1.pv_queries_today =
      s.pv_queries_today + (if result.isSome then 1 else 0) ∧
    (finalize_pv_followup s result).1.pv_attempts_today =
      s.pv_attempts_today + 1 ∧
    (finalize_pv_followup s result).1.pv_queries_today =
      s.pv_queries_today + (if result.isSome then 1 else 0) := by
  rcases result with _ | p
  · unfold finalize_pv_smart finalize_pv_followup
    dsimp only
    refine ⟨?_, ?_, ?_, ?_⟩ <;> split <;>
      simp [pv_smart_continue_fst, pv_followup_continue_fst]
  · unfold finalize_pv_smart finalize_pv_followup
    dsimp only
    simp [pv_smart_continue_fst, pv_followup_continue_fst]

/-- C4: the failure backoff of both finalize paths resets
`pv_consecutive_failures` to 0 on every success and increments it on every
failure; the extended 15-minute pause is emitted exactly when the incremented
counter reaches the threshold 5 (i.e. at least 4 prior consecutive failures);
a success never emits the pause, and after a success the very next failure
cannot emit the pause again. -/
theorem failure_backoff_policy (s : DashState) (now : ℚ) (p : Option ℚ) :
    (finalize_pv_smart s now (some p)).1.pv_consecutive_failures = 0 ∧
    (finalize_pv_smart s now none).1.pv_consecutive_failures =
      s.pv_consecutive_failures + 1 ∧
    ((finalize_pv_smart s now none).2 = PVAction.pause15 ↔
      4 ≤ s.pv_consecutive_failures) ∧
    (finalize_pv_smart s now (some p)).2 ≠ PVAction.pause15 ∧
    (finalize_pv_smart ((finalize_pv_smart s now (some p)).1) now none).2 ≠
      PVAction.pause15 ∧
    (finalize_pv_followup s (some p)).1.pv_consecutive_failures = 0 ∧
    (finalize_pv_followup s none).1.pv_consecutive_failures =
      s.pv_consecutive_failures + 1 ∧
    ((finalize_pv_followup s none).2 = PVAction.pause15 ↔
      4 ≤ s.pv_consecutive_failures) ∧
    (finalize_pv_followup s (some p)).2 ≠ PVAction.pause15 ∧
    (finalize_pv_followup ((finalize_pv_followup s (some p)).1) none).2 ≠
      PVAction.pause15 := by
  have hsf : ∀ t : DashState, ∀ m : ℚ, (finalize_pv_smart t m (some p)).1.pv_consecutive_failures = 0 := by
    intro t m
    unfold finalize_pv_smart
    dsimp only
    rw [pv_smart_continue_fst]
  have hff : ∀ t : DashState, (finalize_pv_followup t (some p)).1.pv_consecutive_failures = 0 := by
    intro t
    unfold finalize_pv_followup
    dsimp only
    rw [pv_followup_continue_fst]
  have hsfail : ∀ t : DashState, ∀ m : ℚ,
      (finalize_pv_smart t m none).1.pv_consecutive_failures =
        t.pv_consecutive_failures + 1 := by
    intro t m
    unfold finalize_pv_smart
    dsimp only
    split
    · rfl
    · rw [pv_smart_continue_fst]
  have hffail : ∀ t : DashState,
      (finalize_pv_followup t none).1.pv_consecutive_failures =
        t.pv_consecutive_failures + 1 := by
    intro t
    unfold finalize_pv_followup
    dsimp only
    split
    · rfl
    · rw [pv_followup_continue_fst]
  have hspause : ∀ t : DashState, ∀ m : ℚ,
      ((finalize_pv_smart t m none).2 = PVAction.pause15 ↔
        4 ≤ t.pv_consecutive_failures) := by
    intro t m
    unfold finalize_pv_smart
    dsimp only
    split
    · next h =>
        simp only [true_iff]
        omega
    · next h =>
        constructor
        · intro hbad
          exact absurd hbad (pv_smart_continue_not_pause _ _)
        · intro h4
          omega
  have hfpause : ∀ t : DashState,
      ((finalize_pv_followup t none).2 = PVAction.pause15 ↔
        4 ≤ t.pv_consecutive_failures) := by
    intro t
    unfold finalize_pv_followup
    dsimp only
    split
    · next h =>
        simp only [true_iff]
        omega
    · next h =>
        constructor
        · intro hbad
          exact absurd hbad (pv_followup_continue_not_pause _)
        · intro h4
          omega
  have hsnp : (finalize_pv_smart s now (some p)).2 ≠ PVAction.pause15 := by
    unfold finalize_pv_smart
    dsimp only
    exact pv_smart_continue_not_pause _ _
  have hfnp : (finalize_pv_followup s (some p)).2 ≠ PVAction.pause15 := by
    unfold finalize_pv_followup
    dsimp only
    exact pv_followup_continue_not_pause _
  refine ⟨hsf s now, hsfail s now, hspause s now, hsnp, ?_, hff s, hffail s,
    hfpause s, hfnp, ?_⟩
  · intro hbad
    have h4 := (hspause _ now).mp hbad
    rw [hsf s now] at h4
    omega
  · intro hbad
    have h4 := (hfpause _).mp hbad
    rw [hff s] at h4
    omega

/-! Helper lemmas about the per-phase interval lookup. -/

theorem get_current_pv_interval_phases (s : DashState) (now : ℚ)
    (cd sr ss du ir ic : ℚ)
    (hq : s.pv_queries_today < s.pv_max_queries)
    (hcd : s.pv_civil_dawn = some cd) (hsr : s.pv_sunrise = some sr)
    (hss : s.pv_sunset = some ss) (hdu : s.pv_civil_dusk = some du)
    (hir : s.pv_interval_ramp = some ir) (hic : s.pv_interval_core = some ic)
    (hirpos : 0 < ir) (hicpos : 0 < ic)
    (h1 : cd ≤ sr) (h2 : sr ≤ ss) (h3 : ss ≤ du) :
    (cd ≤ now → now < sr → get_current_pv_interval s now = (ir, true)) ∧
    (sr ≤ now → now ≤ ss → get_current_pv_interval s now = (ic, true)) ∧
    (ss < now → now ≤ du → get_current_pv_interval s now = (ir, true)) := by
  have hred : get_current_pv_interval s now =
      (if now < cd ∨ du < now then (0, false)
       else if cd ≤ now ∧ now < sr then (ir, true)
       else if sr ≤ now ∧ now ≤ ss then (ic, true)
       else if ss < now ∧ now ≤ du then (ir, true)
       else (0, false)) := by
    unfold get_current_pv_interval
    rw [if_neg (not_le.mpr hq), hcd, hsr, hss, hdu, hir, hic]
    simp [truthyQ, ne_of_gt hirpos, ne_of_gt hicpos]
  refine ⟨?_, ?_, ?_⟩
  · intro g1 g2
    rw [hred, if_neg, if_pos ⟨g1, g2⟩]
    push_neg
    exact ⟨g1, by linarith⟩
  · intro g1 g2
    rw [hred, if_neg, if_neg, if_pos ⟨g1, g2⟩]
    · push_neg
      intro _
      linarith
    · push_neg
      exact ⟨by linarith, by linarith⟩
  · intro g1 g2
    rw [hred, if_neg, if_neg, if_neg, if_pos ⟨g1, g2⟩]
    · push_neg
      intro _
      linarith
    · push_neg
      intro _
      linarith
    · push_neg
      exact ⟨by linarith, by linarith⟩

theorem stateAfterAllocate_fields (B queries : ℕ) (cd sr ss du : ℚ) :
    (stateAfterAllocate B queries cd sr ss du).pv_queries_today = queries ∧
    (stateAfterAllocate B queries cd sr ss du).pv_max_queries = B ∧
    (stateAfterAllocate B queries cd sr ss du).pv_civil_dawn = some cd ∧
    (stateAfterAllocate B queries cd sr ss du).pv_sunrise = some sr ∧
    (stateAfterAllocate B queries cd sr ss du).pv_sunset = some ss ∧
    (stateAfterAllocate B queries cd sr ss du).pv_civil_dusk = some du ∧
    (stateAfterAllocate B queries cd sr ss du).pv_interval_ramp =
      some (schedule_pv_allocate B cd sr ss du).interval_ramp ∧
    (stateAfterAllocate B queries cd sr ss du).pv_interval_core =
      some (schedule_pv_allocate B cd sr ss du).interval_core := by
  unfold stateAfterAllocate
  exact ⟨rfl, rfl, rfl, rfl, rfl, rfl, rfl, rfl⟩

theorem schedule_pv_allocate_intervals (B : ℕ) (cd sr ss du : ℚ)
    (h : 0 < weighted_total cd sr ss du) :
    (schedule_pv_allocate B cd sr ss du).interval_ramp =
      (if 0 < queries_ramp_morning B cd sr ss du ∧ 0 < ramp_morning_min cd sr
       then ramp_morning_min cd sr / ((queries_ramp_morning B cd sr ss du : ℤ) : ℚ) * 60
       else 10 * 60) ∧
    (schedule_pv_allocate B cd sr ss du).interval_core =
      (if 0 < queries_core B cd sr ss du ∧ 0 < core_min sr ss
       then core_min sr ss / ((queries_core B cd sr ss du : ℤ) : ℚ) * 60
       else 2 * 60) := by
  unfold schedule_pv_allocate
  rw [if_neg (not_le.mpr h)]
  exact ⟨rfl, rfl⟩

theorem schedule_pv_allocate_degenerate (B : ℕ) (cd sr ss du : ℚ)
    (h : weighted_total cd sr ss du ≤ 0) :
    (schedule_pv_allocate B cd sr ss du).interval_ramp = 10 * 60 ∧
    (schedule_pv_allocate B cd sr ss du).interval_core = 2 * 60 := by
  unfold schedule_pv_allocate
  rw [if_pos h]
  exact ⟨rfl, rfl⟩

/-- C5 (amended): with the window and intervals stored by
`schedule_pv_window` and budget remaining, the dawn-ramp phase polls at the
ramp interval, the core phase at the core interval, and the dusk-ramp phase
again at the ramp interval — the single ramp interval computed from the
dawn-ramp's own duration and query count, not from the dusk-ramp's.  The
ramp interval is `ramp_morning_min×60/queries_ramp_morning` with the 10-minute
fallback when the dawn-ramp count or duration is zero, the core interval is
`core_min×60/queries_core` with the 2-minute fallback when the core count or
duration is zero, and both fall back when the weighted total is not
positive. -/
theorem pv_interval_amended (B queries : ℕ) (cd sr ss du now : ℚ)
    (hq : queries < B) (h1 : cd ≤ sr) (h2 : sr ≤ ss) (h3 : ss ≤ du) :
    (cd ≤ now → now < sr →
      get_current_pv_interval (stateAfterAllocate B queries cd sr ss du) now =
        ((schedule_pv_allocate B cd sr ss du).interval_ramp, true)) ∧
    (sr ≤ now → now ≤ ss →
      get_current_pv_interval (stateAfterAllocate B queries cd sr ss du) now =
        ((schedule_pv_allocate B cd sr ss du).interval_core, true)) ∧
    (ss < now → now ≤ du →
      get_current_pv_interval (stateAfterAllocate B queries cd sr ss du) now =
        ((schedule_pv_allocate B cd sr ss du).interval_ramp, true)) ∧
    (0 < weighted_total cd sr ss du →
      (schedule_pv_allocate B cd sr ss du).interval_ramp =
        (if 0 < queries_ramp_morning B cd sr ss du ∧ 0 < ramp_morning_min cd sr
         then ramp_morning_min cd sr / ((queries_ramp_morning B cd sr ss du : ℤ) : ℚ) * 60
         else 10 * 60) ∧
      (schedule_pv_allocate B cd sr ss du).interval_core =
        (if 0 < queries_core B cd sr ss du ∧ 0 < core_min sr ss
         then core_min sr ss / ((queries_core B cd sr ss du : ℤ) : ℚ) * 60
         else 2 * 60)) ∧
    (weighted_total cd sr ss du ≤ 0 →
      (schedule_pv_allocate B cd sr ss du).interval_ramp = 10 * 60 ∧
      (schedule_pv_allocate B cd sr ss du).interval_core = 2 * 60) := by
  obtain ⟨hf1, hf2, hf3, hf4, hf5, hf6, hf7, hf8⟩ :=
    stateAfterAllocate_fields B queries cd sr ss du
  obtain ⟨hrpos, hcpos⟩ := schedule_pv_allocate_pos B cd sr ss du
  obtain ⟨g1, g2, g3⟩ :=
    get_current_pv_interval_phases (stateAfterAllocate B queries cd sr ss du)
      now cd sr ss du
      (schedule_pv_allocate B cd sr ss du).interval_ramp
      (schedule_pv_allocate B cd sr ss du).interval_core
      (by rw [hf1, hf2]; exact hq) hf3 hf4 hf5 hf6 hf7 hf8 hrpos hcpos h1 h2 h3
  exact ⟨g1, g2, g3, schedule_pv_allocate_intervals B cd sr ss du,
    schedule_pv_allocate_degenerate B cd sr ss du⟩

/-- Closed witness for `pv_interval_amended`: the window 06:00 / 06:30 /
20:00 / 20:30 with budget 280 and no queries issued yet, observed at 06:10
(inside the dawn ramp). -/
theorem pv_interval_amended_witness :
    ((0:ℕ) < 280 ∧ (360:ℚ) ≤ 390 ∧ (390:ℚ) ≤ 1200 ∧ (1200:ℚ) ≤ 1230 ∧
      (360:ℚ) ≤ 370 ∧ (370:ℚ) < 390) ∧
    get_current_pv_interval (stateAfterAllocate 280 0 360 390 1200 1230) 370 =
      ((schedule_pv_allocate 280 360 390 1200 1230).interval_ramp, true) :=
  ⟨⟨by norm_num, by norm_num, by norm_num, by norm_num, by norm_num, by norm_num⟩,
    (pv_interval_amended 280 0 360 390 1200 1230 370 (by norm_num) (by norm_num)
      (by norm_num) (by norm_num)).1 (by norm_num) (by norm_num)⟩

/-- C5 counterexample: for the window 06:00 / 06:10 / 20:00 / 21:40 with
budget 280, the dawn-ramp query count floors to 0, so the shared ramp
interval falls back to 600 seconds, and that is the interval used while the
current time (20:50) is in the dusk-ramp phase — although the dusk-ramp's
own duration (100 min) and own query count (6) would give
`100×60/6 = 1000` seconds.  The claim that each phase's interval equals its
own duration times 60 over its own query count is therefore false for the
dusk-ramp phase. -/
theorem pv_interval_counterexample :
    queries_ramp_evening 280 360 370 1200 1300 = 6 ∧
    ramp_evening_min 1200 1300 = 100 ∧
    get_current_pv_interval (stateAfterAllocate 280 0 360 370 1200 1300) 1250 =
      (600, true) ∧
    ramp_evening_min 1200 1300 /
        ((queries_ramp_evening 280 360 370 1200 1300 : ℤ) : ℚ) * 60 = 1000 ∧
    (600 : ℚ) ≠ 1000 := by
  have h6 : queries_ramp_evening 280 360 370 1200 1300 = 6 := by
    unfold queries_ramp_evening pyInt weighted_total ramp_morning_min core_min
      ramp_evening_min
    norm_num
  have h100 : ramp_evening_min 1200 1300 = 100 := by
    unfold ramp_evening_min
    norm_num
  have hW : (0:ℚ) < weighted_total 360 370 1200 1300 := by
    unfold weighted_total ramp_morning_min core_min ramp_evening_min
    norm_num
  have hq0 : queries_ramp_morning 280 360 370 1200 1300 = 0 := by
    unfold queries_ramp_morning pyInt weighted_total ramp_morning_min core_min
      ramp_evening_min
    norm_num
  have hramp : (schedule_pv_allocate 280 360 370 1200 1300).interval_ramp = 600 := by
    rw [(schedule_pv_allocate_intervals 280 360 370 1200 1300 hW).1, if_neg]
    · norm_num
    · rw [hq0]
      simp
  obtain ⟨hf1, hf2, hf3, hf4, hf5, hf6, hf7, hf8⟩ :=
    stateAfterAllocate_fields 280 0 360 370 1200 1300
  obtain ⟨hrpos, hcpos⟩ := schedule_pv_allocate_pos 280 360 370 1200 1300
  obtain ⟨-, -, g3⟩ :=
    get_current_pv_interval_phases (stateAfterAllocate 280 0 360 370 1200 1300)
      1250 360 370 1200 1300
      (schedule_pv_allocate 280 360 370 1200 1300).interval_ramp
      (schedule_pv_allocate 280 360 370 1200 1300).interval_core
      (by rw [hf1, hf2]; norm_num) hf3 hf4 hf5 hf6 hf7 hf8 hrpos hcpos
      (by norm_num) (by norm_num) (by norm_num)
  have hgi := g3 (by norm_num) (by norm_num)
  rw [hramp] at hgi
  refine ⟨h6, h100, hgi, ?_, by norm_num⟩
  rw [h6, h100]
  norm_num

/-- A scheduler state at the end of day 0 carrying distinctive stale
interval values (999 s), used to exhibit the day-rollover behaviour when no
twilight source is available. -/
def rolloverStateA : DashState :=
  { pv_attempts_today := 50
    pv_queries_today := 42
    pv_consecutive_failures := 0
    pv_max_queries := 280
    pv_query_date := some 0
    pv_civil_dawn := some 300
    pv_sunrise := some 330
    pv_sunset := some 1150
    pv_civil_dusk := some 1180
    pv_interval_ramp := some 999
    pv_interval_core := some 999
    last_pv_power := some 0 }

/-- The same state as `rolloverStateA` but with stale intervals 888 s. -/
def rolloverStateB : DashState :=
  { rolloverStateA with pv_interval_ramp := some 888, pv_interval_core := some 888 }

/-- The initial attribute values set in `Dashboard7inchRedesigned.__init__`
(src lines 1347-1354 and 1384-1385). -/
def initialDashState : DashState :=
  { pv_attempts_today := 0
    pv_queries_today := 0
    pv_consecutive_failures := 0
    pv_max_queries := 280
    pv_query_date := none
    pv_civil_dawn := none
    pv_sunrise := none
    pv_sunset := none
    pv_civil_dusk := none
    pv_interval_ramp := none
    pv_interval_core := none
    last_pv_power := none }

/-- C3 (amended): whenever `schedule_pv_window` observes that the stored
query day differs from today it resets `pv_queries_today` to 0 and stamps
the new date, regardless of the previous state; fresh per-phase intervals
for the resolved window are stored whenever at least one twilight source
(skyfield or api.met.no) is available; when neither is available the
function schedules a 30-minute retry and the previous day's intervals
remain in place unchanged. -/
theorem day_rollover_amended (s : DashState) (today : ℤ) (now : ℚ)
    (sky api : Option (ℚ × ℚ)) (hroll : s.pv_query_date ≠ some today) :
    (schedule_pv_window s today now sky api).1.pv_queries_today = 0 ∧
    (schedule_pv_window s today now sky api).1.pv_query_date = some today ∧
    (∀ cd sr ss du, resolveWindow sky api = some (cd, sr, ss, du) →
      (schedule_pv_window s today now sky api).1.pv_interval_ramp =
        some (schedule_pv_allocate s.pv_max_queries cd sr ss du).interval_ramp ∧
      (schedule_pv_window s today now sky api).1.pv_interval_core =
        some (schedule_pv_allocate s.pv_max_queries cd sr ss du).interval_core) ∧
    (resolveWindow sky api = none →
      (schedule_pv_window s today now sky api).2 = WindowAction.retry30 ∧
      (schedule_pv_window s today now sky api).1.pv_interval_ramp =
        s.pv_interval_ramp ∧
      (schedule_pv_window s today now sky api).1.pv_interval_core =
        s.pv_interval_core) := by
  unfold schedule_pv_window
  rw [if_neg hroll]
  rcases hres : resolveWindow sky api with - | ⟨cd', sr', ss', du'⟩
  · refine ⟨rfl, rfl, ?_, fun _ => ⟨rfl, rfl, rfl⟩⟩
    intro cd sr ss du hcon
    cases hcon
  · dsimp only
    refine ⟨?_, ?_, ?_, ?_⟩
    · split
      · rfl
      · split <;> rfl
    · split
      · rfl
      · split <;> rfl
    · intro cd sr ss du hcon
      simp only [Option.some.injEq, Prod.mk.injEq] at hcon
      obtain ⟨rfl, rfl, rfl, rfl⟩ := hcon
      constructor
      · split
        · rfl
        · split <;> rfl
      · split
        · rfl
        · split <;> rfl
    · intro hcon
      cases hcon

/-- Closed witness for `day_rollover_amended`: observed on day 1 with a
stale day-0 state, the counter resets and the freshly allocated intervals
for the skyfield window are stored. -/
theorem day_rollover_amended_witness :
    rolloverStateA.pv_query_date ≠ some 1 ∧
    (schedule_pv_window rolloverStateA 1 720 (some (360, 1230))
        (some (390, 1200))).1.pv_queries_today = 0 ∧
    (schedule_pv_window rolloverStateA 1 720 (some (360, 1230))
        (some (390, 1200))).1.pv_query_date = some 1 ∧
    (schedule_pv_window rolloverStateA 1 720 (some (360, 1230))
        (some (390, 1200))).1.pv_interval_ramp =
      some (schedule_pv_allocate 280 360 390 1200 1230).interval_ramp :=
  ⟨by decide,
    (day_rollover_amended rolloverStateA 1 720 (some (360, 1230))
      (some (390, 1200)) (by decide)).1,
    (day_rollover_amended rolloverStateA 1 720 (some (360, 1230))
      (some (390, 1200)) (by decide)).2.1,
    ((day_rollover_amended rolloverStateA 1 720 (some (360, 1230))
      (some (390, 1200)) (by decide)).2.2.1 360 390 1200 1230 rfl).1⟩

/-- C3 counterexample: on a day rollover (stored day 0, today 1) with
neither twilight source available, `schedule_pv_window` resets the counter
but does not compute fresh intervals — the stale interval values (999 s,
resp. 888 s in an otherwise identical state) survive unchanged and only a
30-minute retry is scheduled, refuting the claim that a fresh set of
per-phase intervals is computed whenever the date change is observed. -/
theorem day_rollover_counterexample :
    rolloverStateA.pv_query_date = some 0 ∧ ((0:ℤ) ≠ 1) ∧
    (schedule_pv_window rolloverStateA 1 720 none none).1.pv_queries_today = 0 ∧
    (schedule_pv_window rolloverStateA 1 720 none none).1.pv_interval_ramp =
      some 999 ∧
    (schedule_pv_window rolloverStateA 1 720 none none).1.pv_interval_core =
      some 999 ∧
    (schedule_pv_window rolloverStateB 1 720 none none).1.pv_interval_ramp =
      some 888 ∧
    (schedule_pv_window rolloverStateA 1 720 none none).2 =
      WindowAction.retry30 :=
  ⟨rfl, by norm_num, rfl, rfl, rfl, rfl, rfl⟩

/-- C6 (amended): when neither the skyfield twilight nor the api.met.no
sunrise/sunset source is available, `schedule_pv_window` does not install
fixed fallback window bounds; it logs a warning, leaves the stored window
boundaries and intervals exactly as they were, and schedules a retry of the
whole window computation 30 minutes later, so scheduling is deferred (and
re-attempted indefinitely) rather than proceeding on a fallback window. -/
theorem no_twilight_source_retries (s : DashState) (today : ℤ) (now : ℚ) :
    (schedule_pv_window s today now none none).2 = WindowAction.retry30 ∧
    (schedule_pv_window s today now none none).1.pv_civil_dawn =
      s.pv_civil_dawn ∧
    (schedule_pv_window s today now none none).1.pv_sunrise = s.pv_sunrise ∧
    (schedule_pv_window s today now none none).1.pv_sunset = s.pv_sunset ∧
    (schedule_pv_window s today now none none).1.pv_civil_dusk =
      s.pv_civil_dusk ∧
    (schedule_pv_window s today now none none).1.pv_interval_ramp =
      s.pv_interval_ramp ∧
    (schedule_pv_window s today now none none).1.pv_interval_core =
      s.pv_interval_core := by
  by_cases hd : s.pv_query_date = some today
  · unfold schedule_pv_window
    rw [if_pos hd]
    exact ⟨rfl, rfl, rfl, rfl, rfl, rfl, rfl⟩
  · unfold schedule_pv_window
    rw [if_neg hd]
    exact ⟨rfl, rfl, rfl, rfl, rfl, rfl, rfl⟩

/-- C6 counterexample: starting from the freshly initialised state with no
window set and both sources unavailable, the window fields remain `None`
after `schedule_pv_window` — no fixed fallback bounds (such as a default
06:00-20:00 window) are installed — and the only effect is a 30-minute
retry, refuting the claim that fixed fallback window bounds are used. -/
theorem no_twilight_source_counterexample :
    (schedule_pv_window initialDashState 1 720 none none).1.pv_civil_dawn =
      none ∧
    (schedule_pv_window initialDashState 1 720 none none).1.pv_sunrise = none ∧
    (schedule_pv_window initialDashState 1 720 none none).1.pv_sunset = none ∧
    (schedule_pv_window initialDashState 1 720 none none).1.pv_civil_dusk =
      none ∧
    (schedule_pv_window initialDashState 1 720 none none).1.pv_interval_ramp =
      none ∧
    (schedule_pv_window initialDashState 1 720 none none).2 =
      WindowAction.retry30 :=
  ⟨rfl, rfl, rfl, rfl, rfl, rfl⟩

end NetatmoDashboard
